import Mathlib

/-!
Verification of the braille card/cylinder STL generator's geometry engine
(`static/geometry.js`, most complete variant) against its natural-language
specification.  The JavaScript is shallowly embedded: settings objects become
a structure of optional rationals (JS `undefined` is `none`, and the JS
falsy-`||` idiom is modelled explicitly), numeric plate arithmetic is over ℚ,
angular/normal arithmetic over ℝ, and the CSG evaluator's nullable results
are `Option`/`Except` values.
-/

namespace BrailleGeo

/-- The settings object handed to the geometry builders.  Every field the
geometry code reads is `Option ℚ` (`none` = property absent / `undefined`);
`debug_triangle_only` is the boolean debug flag; `indicator_shapes` is the
UI's indicator toggle (present on the app's settings object, never read by
the geometry code). -/
structure Settings where
  grid_columns : Option ℚ := none
  gridColumns : Option ℚ := none
  grid_rows : Option ℚ := none
  gridRows : Option ℚ := none
  card_width : Option ℚ := none
  card_height : Option ℚ := none
  card_thickness : Option ℚ := none
  dot_spacing : Option ℚ := none
  left_margin : Option ℚ := none
  top_margin : Option ℚ := none
  cell_spacing : Option ℚ := none
  line_spacing : Option ℚ := none
  braille_x_adjust : Option ℚ := none
  braille_y_adjust : Option ℚ := none
  emboss_dot_base_diameter : Option ℚ := none
  emboss_dot_cylinder_diameter : Option ℚ := none
  emboss_dot_cylinder_height : Option ℚ := none
  emboss_dot_height : Option ℚ := none
  emboss_dot_dome_height : Option ℚ := none
  counter_plate_dot_size_offset : Option ℚ := none
  counter_plate_dot_cylinder_diameter : Option ℚ := none
  indicator_recess_depth : Option ℚ := none
  debug_triangle_only : Bool := false
  indicator_shapes : Option ℚ := none

/-- Cylinder parameters object (`cylinderParams` argument). -/
structure CylParams where
  diameter_mm : Option ℚ := none
  height_mm : Option ℚ := none
  seam_offset_deg : Option ℚ := none
  polygonal_cutout_radius_mm : Option ℚ := none

/-- JS `a || b` on numeric properties: `a` when present and truthy
(nonzero), else `b`.  (`NaN` never arises for the rational model.) -/
def jsOr (a b : Option ℚ) : Option ℚ :=
  match a with
  | none => b
  | some x => if x = 0 then b else some x

/-- `toNumber(v, fallback)` from the source: `Number(v)` when `v` is a
present finite number, else the fallback. -/
def toNumber (v : Option ℚ) (d : ℚ) : ℚ := v.getD d

/-- `getAvailableColumns`: `Math.max(0, gridColumns - 2)` where
`gridColumns = Number(settings.grid_columns || settings.gridColumns || 26)`. -/
def getAvailableColumns (s : Settings) : ℚ :=
  let gridColumns := (jsOr (jsOr s.grid_columns s.gridColumns) (some 26)).getD 26
  max 0 (gridColumns - 2)

/-- `getGridRows`: `Number(settings.grid_rows || settings.gridRows || 4)`. -/
def getGridRows (s : Settings) : ℚ :=
  (jsOr (jsOr s.grid_rows s.gridRows) (some 4)).getD 4

/-- Number of iterations of a JS loop `for (let i = 0; i < q; i++)` with a
(possibly non-integral) numeric bound `q`. -/
def jsLoopCount (q : ℚ) : ℕ := (⌈q⌉ : ℤ).toNat

/-- Number of characters kept by `.slice(0, q)` on a long string, for a
numeric bound `q ≥ 0` (JS truncates the bound toward zero). -/
def jsSliceCount (q : ℚ) : ℕ := (⌊q⌋ : ℤ).toNat

/-- `brailleUnicodeToDots`: dot flags 1–6 of a character, computed by the
source as `(code - 0x2800) & (1 << i)` on the 32-bit two's-complement
integer, with no range guard. -/
def brailleUnicodeToDots (code : ℕ) (i : Fin 6) : Bool :=
  ((((code : ℤ) - 0x2800).emod (2 ^ 32)).toNat).testBit i.val

/-- The all-blank 6-dot pattern. -/
def emptyPattern : Fin 6 → Bool := fun _ => false

/-- Encoding of a 6-dot pattern as a braille code point: base `0x2800` plus
the bitmask with bit `i` set for dot `i+1`. -/
def encodePattern (p : Fin 6 → Bool) : ℕ :=
  0x2800 + ∑ i : Fin 6, (if p i then 2 ^ i.val else 0)

/-- `dotColOffsets = [-dotSpacing / 2, dotSpacing / 2]`. -/
def dotColOffset (ds : ℚ) (c : ℕ) : ℚ := if c = 0 then -ds / 2 else ds / 2

/-- `dotRowOffsets = [dotSpacing, 0, -dotSpacing]`. -/
def dotRowOffset (ds : ℚ) (r : ℕ) : ℚ :=
  if r = 0 then ds else if r = 1 then 0 else -ds

/-- `dotIndexToRowCol`: intra-cell (row, column) of dots 1–6. -/
def dotIndexToRowCol (i : ℕ) : ℕ × ℕ :=
  if i = 0 then (0, 0) else if i = 1 then (1, 0) else if i = 2 then (2, 0)
  else if i = 3 then (0, 1) else if i = 4 then (1, 1) else (2, 1)

/-- The row centerline used by the flat builders:
`card_height - topMargin - rowIdx * lineSpacing + yAdjust`. -/
def cardRowY (s : Settings) (rowIdx : ℕ) : ℚ :=
  toNumber s.card_height 54 - toNumber s.top_margin 8
    - (rowIdx : ℚ) * toNumber s.line_spacing 10 + toNumber s.braille_y_adjust 0

/-- The cell centerline used by all builders:
`leftMargin + (col + 1) * cellSpacing + xAdjust`. -/
def cellX (s : Settings) (col : ℕ) : ℚ :=
  toNumber s.left_margin 8 + ((col : ℚ) + 1) * toNumber s.cell_spacing 6
    + toNumber s.braille_x_adjust 0

/-- World position of the dot mesh emitted by `buildCardEmbossingPlate` for
dot slot `i` of cell `(rowIdx, col)`; the mesh `z` is the card thickness
(the dot's base sits on the card surface). -/
def cardDotPosition (s : Settings) (rowIdx col i : ℕ) : ℚ × ℚ × ℚ :=
  let rc := dotIndexToRowCol i
  (cellX s col + dotColOffset (toNumber s.dot_spacing 2.54) rc.2,
   cardRowY s rowIdx + dotRowOffset (toNumber s.dot_spacing 2.54) rc.1,
   toNumber s.card_thickness 1.6)

/-- The `(rowIdx, col, dotSlot)` triples whose dot flag is set, enumerated in
the order the card embossing builder visits them.  A translated line is a
list of character code points; each line is truncated to the available
columns before layout. -/
def activeDotTriples (lines : List (List ℕ)) (s : Settings) : List (ℕ × ℕ × ℕ) :=
  (List.range (jsLoopCount (getGridRows s))).flatMap fun rowIdx =>
    let text := (lines.getD rowIdx []).take (jsSliceCount (getAvailableColumns s))
    (List.range text.length).flatMap fun col =>
      (List.range 6).filterMap fun i =>
        if brailleUnicodeToDots (text.getD col 0) ⟨i % 6, Nat.mod_lt _ (by omega)⟩
        then some (rowIdx, col, i) else none

/-- Embedding of the dot-placement loop of `buildCardEmbossingPlate`
(flat emboss plate): the world positions of all raised-dot meshes, in
emission order.  In debug-triangle mode the dot loop is skipped. -/
def buildCardEmbossingDots (lines : List (List ℕ)) (s : Settings) :
    List (ℚ × ℚ × ℚ) :=
  if s.debug_triangle_only then [] else
  (List.range (jsLoopCount (getGridRows s))).flatMap fun rowIdx =>
    let text := (lines.getD rowIdx []).take (jsSliceCount (getAvailableColumns s))
    (List.range text.length).flatMap fun col =>
      (List.range 6).filterMap fun i =>
        if brailleUnicodeToDots (text.getD col 0) ⟨i % 6, Nat.mod_lt _ (by omega)⟩
        then some (cardDotPosition s rowIdx col i) else none

/-- Embedding of the dot-recess loop of `buildCardCounterPlate` (flat
counter plate): recess sphere centers are placed at all 6 dot slots of every
cell, over all available columns and grid rows, with no text input; the
sphere center `z` is the card thickness (equator at the surface).  Loop
order is row, column, then intra-cell column before intra-cell row. -/
def buildCardCounterRecessCenters (s : Settings) : List (ℚ × ℚ × ℚ) :=
  if s.debug_triangle_only then [] else
  (List.range (jsLoopCount (getGridRows s))).flatMap fun rowIdx =>
    (List.range (jsLoopCount (getAvailableColumns s))).flatMap fun col =>
      (List.range 2).flatMap fun c =>
        (List.range 3).map fun r =>
          (cellX s col + dotColOffset (toNumber s.dot_spacing 2.54) c,
           cardRowY s rowIdx + dotRowOffset (toNumber s.dot_spacing 2.54) r,
           toNumber s.card_thickness 1.6)

/-- The counter-plate builders take no text: this wrapper mirrors a caller
generating the counter plate while holding some translated text, which the
builder never receives. -/
def cardCounterPlateForText (_lines : List (List ℕ)) (s : Settings) :
    List (ℚ × ℚ × ℚ) :=
  buildCardCounterRecessCenters s

/-- Indicator prism kinds: start-of-row rectangle, end-of-row triangle. -/
inductive IndicatorKind where
  | rect : IndicatorKind
  | tri : IndicatorKind
deriving DecidableEq, Repr

/-- `recessDepth = Math.min(0.8, Math.max(0.2, toNumber(indicator_recess_depth, 0.5)))`. -/
def indicatorRecessDepth (s : Settings) : ℚ :=
  min 0.8 (max 0.2 (toNumber s.indicator_recess_depth 0.5))

/-- Embedding of the indicator loop of `buildCardCounterPlate`: per grid
row, one rectangle brush at the reserved leading cell (skipped in
debug-triangle mode) and one triangle brush at the reserved trailing cell,
both sunk to `thickness - min(recessDepth, 0.8 * thickness)`. -/
def buildCardCounterIndicators (s : Settings) :
    List (IndicatorKind × ℚ × ℚ × ℚ) :=
  let t := toNumber s.card_thickness 1.6
  let eff := min (indicatorRecessDepth s) (t * 0.8)
  let ds := toNumber s.dot_spacing 2.54
  (List.range (jsLoopCount (getGridRows s))).flatMap fun rowIdx =>
    let yPos := cardRowY s rowIdx
    (if s.debug_triangle_only then [] else
      [(IndicatorKind.rect,
        toNumber s.left_margin 8 + toNumber s.braille_x_adjust 0 - ds,
        yPos, t - eff)]) ++
    [(IndicatorKind.tri,
      toNumber s.left_margin 8
        + (getAvailableColumns s + 1) * toNumber s.cell_spacing 6
        + toNumber s.braille_x_adjust 0,
      yPos, t - eff)]

/-- Axial (Z) coordinate of the row-`rowIdx` dot centerline placed by the
dot loop of `buildCylinderEmbossingPlate`:
`(card_height - top_margin - rowIdx·lineSpacing + yAdjust) + zCenterOffset`
with `zCenterOffset = -height/2` — anchored from the flat plate's top
margin, not centered. -/
def cylinderEmbossRowAxial (s : Settings) (p : CylParams) (rowIdx : ℕ) : ℚ :=
  let height := toNumber p.height_mm (toNumber s.card_height 54)
  (toNumber s.card_height 54 - toNumber s.top_margin 8
      - (rowIdx : ℚ) * toNumber s.line_spacing 10
      + toNumber s.braille_y_adjust 0)
    + (-height / 2)

/-- Axial (Z) coordinate of the row-`rowIdx` recess centerline placed by
`buildCylinderCounterPlate`:
`((height/2) + yAdjust + (rowsSpan/2 - rowIdx·lineSpacing)) + zCenterOffset`
with `rowsSpan = (gridRows - 1)·lineSpacing` — the row block is centered
about the cylinder midplane. -/
def cylinderCounterRowAxial (s : Settings) (p : CylParams) (rowIdx : ℕ) : ℚ :=
  let height := toNumber p.height_mm (toNumber s.card_height 54)
  let ls := toNumber s.line_spacing 10
  let rowsSpan := (getGridRows s - 1) * ls
  ((height / 2) + toNumber s.braille_y_adjust 0
      + (rowsSpan / 2 - (rowIdx : ℚ) * ls))
    + (-height / 2)

/-- Axial (Z) coordinate of the row-`rowIdx` indicator prisms placed by the
indicator loop of `buildCylinderEmbossingPlate` (same centered formula as
the counter plate's rows). -/
def cylinderEmbossIndicatorAxial (s : Settings) (p : CylParams) (rowIdx : ℕ) : ℚ :=
  cylinderCounterRowAxial s p rowIdx

/-! ### CSG compositor (`balancedUnion`)

A value sitting in the reduction's working array is either an actual brush
or JS `null` (what `evaluator.evaluate` returns on a degenerate pairwise
result, and what the code pushes in that case).  Passing `null` back into
`evaluator.evaluate` at the next level throws, which the embedding records
as `Except.error`. -/

/-- A slot of the working array inside `balancedUnion`: a brush, or the
`null` pushed after a failed pairwise union. -/
inductive JsVal (α : Type) where
  | null : JsVal α
  | brush : α → JsVal α
deriving DecidableEq, Repr

/-- One call `evaluator.evaluate(x, y, ADDITION)` on working-array entries:
on two real brushes the abstract evaluator `ev` runs (returning `none` for
a null/degenerate result, which the code pushes as-is); on a `null` operand
the call throws. -/
def evalStep {α : Type} (ev : α → α → Option α) :
    JsVal α → JsVal α → Except Unit (JsVal α)
  | JsVal.brush a, JsVal.brush b =>
      Except.ok (match ev a b with
        | some c => JsVal.brush c
        | none => JsVal.null)
  | _, _ => Except.error ()

/-- One pass of the inner `for (let i = 0; i < level.length; i += 2)` loop:
adjacent entries are combined with `evalStep` (the result — `null`
included — is pushed), and an odd trailing entry is carried over. -/
def pairPass {α : Type} (ev : α → α → Option α) :
    List (JsVal α) → Except Unit (List (JsVal α))
  | [] => Except.ok []
  | [x] => Except.ok [x]
  | x :: y :: rest => do
      let z ← evalStep ev x y
      let zs ← pairPass ev rest
      pure (z :: zs)

theorem pairPass_length_le {α : Type} (ev : α → α → Option α) :
    ∀ (l zs : List (JsVal α)), pairPass ev l = Except.ok zs → zs.length ≤ l.length
  | [], zs, h => by
      simp only [pairPass, Except.ok.injEq] at h
      simp [← h]
  | [x], zs, h => by
      simp only [pairPass, Except.ok.injEq] at h
      simp [← h]
  | x :: y :: rest, zs, h => by
      simp only [pairPass, bind, Except.bind] at h
      cases hxy : evalStep ev x y with
      | error e => rw [hxy] at h; exact absurd h (by simp)
      | ok z =>
        rw [hxy] at h
        cases hr : pairPass ev rest with
        | error e => rw [hr] at h; exact absurd h (by simp [pure, Except.pure])
        | ok zs' =>
          rw [hr] at h
          simp only [pure, Except.pure, Except.ok.injEq] at h
          have := pairPass_length_le ev rest zs' hr
          simp [← h, List.length_cons]
          omega

/-- The `while (level.length > 1)` loop of `balancedUnion`. -/
def balancedUnionLoop {α : Type} (ev : α → α → Option α) :
    List (JsVal α) → Except Unit (JsVal α)
  | [] => Except.ok JsVal.null
  | [x] => Except.ok x
  | x :: y :: rest =>
      match hxy : evalStep ev x y with
      | Except.error e => Except.error e
      | Except.ok z =>
        match hr : pairPass ev rest with
        | Except.error e => Except.error e
        | Except.ok zs => balancedUnionLoop ev (z :: zs)
termination_by l => l.length
decreasing_by
  have := pairPass_length_le ev rest zs hr
  simp only [List.length_cons]
  omega

/-- Embedding of `balancedUnion(evaluator, brushes)`: returns `null` for an
empty list, else reduces the list with balanced pairwise unions, pushing
`null` in place of any failed pairwise result.  `Except.error` marks the
exception thrown when such a `null` reaches a later `evaluate` call. -/
def balancedUnion {α : Type} (ev : α → α → Option α) (brushes : List α) :
    Except Unit (JsVal α) :=
  match brushes with
  | [] => Except.ok JsVal.null
  | _ => balancedUnionLoop ev (brushes.map JsVal.brush)

/-! ### Cylindrical surface mapping (over ℝ) -/

open Real in
/-- Base angle of a cell on the cylinder:
`(xCell / circumference) * 2π + thetaOffset` with `circumference = π·diameter`. -/
noncomputable def cylBaseTheta (diameter xCell thetaOff : ℝ) : ℝ :=
  (xCell / (Real.pi * diameter)) * (2 * Real.pi) + thetaOff

/-- Intra-cell column angle offsets of the cylinder builders:
`[-(dotSpacing / radius) / 2, (dotSpacing / radius) / 2]` with
`radius = diameter / 2`. -/
noncomputable def dotColAngleOffset (diameter ds : ℝ) (c : ℕ) : ℝ :=
  if c = 0 then -(ds / (diameter / 2)) / 2 else (ds / (diameter / 2)) / 2

/-- Angle at which `buildCylinderEmbossingPlate` places the dot in intra-cell
column `c` of the cell whose plate-space center is `xCell`. -/
noncomputable def cylDotTheta (diameter ds xCell thetaOff : ℝ) (c : ℕ) : ℝ :=
  cylBaseTheta diameter xCell thetaOff + dotColAngleOffset diameter ds c

/-- Plate-space X of that same dot in the flat layout:
cell center plus `±dotSpacing/2`. -/
noncomputable def flatDotX (ds xCell : ℝ) (c : ℕ) : ℝ :=
  xCell + (if c = 0 then -ds / 2 else ds / 2)

/-! ### STL serializer (`exportObjectToAsciiSTL`) -/

/-- A 3-vector over ℝ. -/
structure Vec3 where
  x : ℝ
  y : ℝ
  z : ℝ

/-- Componentwise difference. -/
def vsub (a b : Vec3) : Vec3 := ⟨a.x - b.x, a.y - b.y, a.z - b.z⟩

/-- Cross product. -/
def vcross (a b : Vec3) : Vec3 :=
  ⟨a.y * b.z - a.z * b.y, a.z * b.x - a.x * b.z, a.x * b.y - a.y * b.x⟩

/-- Squared Euclidean length. -/
def vlen2 (v : Vec3) : ℝ := v.x * v.x + v.y * v.y + v.z * v.z

/-- Scalar multiple. -/
def vscale (k : ℝ) (v : Vec3) : Vec3 := ⟨k * v.x, k * v.y, k * v.z⟩

/-- THREE's `Vector3.normalize`: `divideScalar(length() || 1)`; a zero
vector is left unchanged. -/
noncomputable def vnormalize (v : Vec3) : Vec3 :=
  let l := Real.sqrt (vlen2 v)
  vscale (1 / (if l = 0 then 1 else l)) v

/-- A triangle read off the (world-transformed) position attribute. -/
structure Tri where
  a : Vec3
  b : Vec3
  c : Vec3

/-- The facet normal the exporter computes for a triangle:
`cb = c - b; ab = a - b; cb.cross(ab).normalize()` — a function of the
vertex winding only. -/
noncomputable def facetNormal (t : Tri) : Vec3 :=
  vnormalize (vcross (vsub t.c t.b) (vsub t.a t.b))

/-- One `facet … outer loop … endfacet` block of the ASCII STL output. -/
structure Facet where
  normal : Vec3
  va : Vec3
  vb : Vec3
  vc : Vec3

/-- Embedding of the facet-emission loop of `exportObjectToAsciiSTL`.  The
input pairs each triangle with the upstream per-face normal stored in the
mesh's normal attribute; the exporter reads only the position data, emitting
one facet per vertex triple with a freshly computed winding normal, with no
skip of zero-area triangles. -/
noncomputable def exportFacets (tris : List (Tri × Vec3)) : List Facet :=
  tris.map fun tv =>
    { normal := facetNormal tv.1, va := tv.1.a, vb := tv.1.b, vc := tv.1.c }

/-- Embedding of the dot-recess loop of `buildCylinderCounterPlate`
(cylinder counter plate, no text input): for every grid row, every
available column and all 6 dot slots, a recess sphere is oriented radially
and centered on the cylinder surface at
`(cos θ · radius, sin θ · radius, zLocal + rowOffset)` with
`θ = baseTheta + colAngleOffset`.  Loop order is row, column, then
intra-cell column before intra-cell row; in debug-triangle mode the loop
is skipped. -/
noncomputable def buildCylinderCounterRecessCenters (s : Settings) (p : CylParams) :
    List (ℝ × ℝ × ℝ) :=
  if s.debug_triangle_only then [] else
  let diameter : ℝ := (toNumber p.diameter_mm 31.35 : ℚ)
  let thetaOff : ℝ := (toNumber p.seam_offset_deg 355 : ℚ) * Real.pi / 180
  let radius : ℝ := diameter / 2
  let ds : ℚ := toNumber s.dot_spacing 2.54
  (List.range (jsLoopCount (getGridRows s))).flatMap fun rowIdx =>
    let zLocal : ℝ := (cylinderCounterRowAxial s p rowIdx : ℚ)
    (List.range (jsLoopCount (getAvailableColumns s))).flatMap fun col =>
      let baseTheta : ℝ := cylBaseTheta diameter ((cellX s col : ℚ) : ℝ) thetaOff
      (List.range 2).flatMap fun c =>
        let theta : ℝ := baseTheta + dotColAngleOffset diameter ((ds : ℚ) : ℝ) c
        (List.range 3).map fun r =>
          (Real.cos theta * radius, Real.sin theta * radius,
           zLocal + ((dotRowOffset ds r : ℚ) : ℝ))

/-- Like `cardCounterPlateForText`: the cylinder counter-plate builder also
takes no text, only settings and cylinder parameters. -/
noncomputable def cylinderCounterPlateForText (_lines : List (List ℕ))
    (s : Settings) (p : CylParams) : List (ℝ × ℝ × ℝ) :=
  buildCylinderCounterRecessCenters s p

/-- Emboss dot cylinder diameter from `createDotGeometry`:
`toNumber(settings.emboss_dot_cylinder_diameter || settings.emboss_dot_base_diameter, 1.5)`. -/
def embossDotCylinderDiameter (s : Settings) : ℚ :=
  toNumber (jsOr s.emboss_dot_cylinder_diameter s.emboss_dot_base_diameter) 1.5

/-- Recess opening diameter from `createRecessDotGeometry`: the explicit
counter-plate dot diameter when that setting is present and non-empty, else
the emboss cylinder diameter plus the counter-plate size offset. -/
def recessOpeningDiameter (s : Settings) : ℚ :=
  match s.counter_plate_dot_cylinder_diameter with
  | some q => q
  | none => embossDotCylinderDiameter s + toNumber s.counter_plate_dot_size_offset 0

/-! ## Theorems -/

/-- Helper: the length of a `flatMap` whose blocks all have length `k`. -/
theorem length_flatMap_const {α β : Type} (f : α → List β) (k : ℕ) :
    ∀ l : List α, (∀ a ∈ l, (f a).length = k) → (l.flatMap f).length = l.length * k
  | [], _ => by simp
  | a :: l, h => by
      have ha := h a (by simp)
      have ih := length_flatMap_const f k l fun x hx => h x (by simp [hx])
      simp only [List.flatMap_cons, List.length_append, List.length_cons, ih, ha]
      ring

/-- C1 (counterexample).  With `grid_columns = 10` and the indicator toggle
off (`indicator_shapes = 0`), the claim predicts 10 available columns
(reservedColumns = 0 when indicators are disabled); the code returns 8:
`getAvailableColumns` always subtracts 2 and never reads the toggle. -/
theorem availableColumns_ignores_indicator_toggle :
    getAvailableColumns { grid_columns := some 10, indicator_shapes := some 0 } = 8 ∧
    (8 : ℚ) ≠ 10 := by
  constructor
  · norm_num [getAvailableColumns, jsOr, toNumber, max_def]
  · norm_num

/-- C1 (amended).  For every settings object whose `grid_columns` is a
number ≥ 1, the available-columns computation returns
`max(0, columns − 2)` — two columns are always reserved, independent of the
indicator toggle; the result is never negative for any settings object; and
a `grid_columns` of 0 is falsy, so it falls back to the default 26,
yielding 24. -/
theorem availableColumns_spec (s : Settings) (q : ℚ)
    (hq : s.grid_columns = some q) (h1 : 1 ≤ q) :
    getAvailableColumns s = max 0 (q - 2) ∧
    (∀ s' : Settings, 0 ≤ getAvailableColumns s') ∧
    (∀ s' : Settings, s'.grid_columns = some 0 → s'.gridColumns = none →
      getAvailableColumns s' = 24) := by
  refine ⟨?_, fun s' => le_max_left _ _, fun s' h0 hn => ?_⟩
  · have hq0 : q ≠ 0 := by intro h; rw [h] at h1; norm_num at h1
    simp [getAvailableColumns, jsOr, hq, hq0, toNumber]
  · norm_num [getAvailableColumns, jsOr, h0, hn, toNumber, max_def]

/-- C1 witness: the amended theorem at `grid_columns = 10`. -/
theorem availableColumns_spec_witness :
    ({ grid_columns := some 10 } : Settings).grid_columns = some 10 ∧
    (1 : ℚ) ≤ 10 ∧
    getAvailableColumns { grid_columns := some 10 } = max 0 (10 - 2) := by
  refine ⟨rfl, by decide, ?_⟩
  exact (availableColumns_spec { grid_columns := some 10 } 10 rfl (by decide)).1

/-- C5 (counterexample).  The space character U+0020 is outside the braille
range, but the decoder does not return the empty pattern: the JS bitwise
`&` works on the 32-bit two's complement of `0x20 - 0x2800`, which sets the
dot-6 flag. -/
theorem decode_space_not_empty :
    brailleUnicodeToDots 32 ⟨5, by omega⟩ = true ∧
    brailleUnicodeToDots 32 ≠ emptyPattern := by
  constructor
  · decide
  · intro h
    have h5 := congrFun h ⟨5, by omega⟩
    revert h5
    decide

/-- C5 (amended).  For every input character, the decoder returns the dot
pattern of `(codePoint − 0x2800) mod 64` (the low six bits of the 32-bit
two's-complement difference), without raising an error; since
`0x2800 ≡ 0 (mod 64)` this is the pattern of `codePoint mod 64`, so
out-of-range characters decode to a generally non-empty pattern rather
than to the empty one. -/
theorem decode_eq_mod64 (code : ℕ) (i : Fin 6) :
    brailleUnicodeToDots code i = Nat.testBit (code % 64) i.val := by
  unfold brailleUnicodeToDots
  set m : ℤ := ((code : ℤ) - 0x2800).emod (2 ^ 32) with hm
  have h64 : m.toNat % 64 = code % 64 := by
    have hm' : m = ((code : ℤ) - 10240) % 4294967296 := by
      rw [hm]; norm_num; rfl
    omega
  have hi : i.val < 6 := i.isLt
  calc (m.toNat).testBit i.val
      = (m.toNat % 2 ^ 6).testBit i.val := by
        rw [Nat.testBit_mod_two_pow]
        simp [hi]
    _ = (code % 64).testBit i.val := by
        rw [show (2 : ℕ) ^ 6 = 64 by norm_num, h64]

/-- C6.  Encoding any of the 64 six-dot patterns as a braille cell
character (`0x2800` plus its bitmask) and decoding it recovers exactly the
original pattern. -/
theorem decode_encode (p : Fin 6 → Bool) (i : Fin 6) :
    brailleUnicodeToDots (encodePattern p) i = p i := by
  revert p i
  decide

/-- C3 (counterexample).  With two brushes whose pairwise union is
degenerate (the evaluator returns null), `balancedUnion` returns null: the
un-combined left-hand operand is *not* substituted, so the accumulated
geometry is lost, and no degradation flag exists on the result. -/
theorem balancedUnion_drops_left_operand :
    balancedUnion (fun _ _ => (none : Option ℕ)) [0, 1] = Except.ok JsVal.null ∧
    balancedUnion (fun _ _ => (none : Option ℕ)) [0, 1] ≠
      Except.ok (JsVal.brush 0) := by
  constructor
  · simp [balancedUnion, balancedUnionLoop, pairPass, evalStep]
  · simp [balancedUnion, balancedUnionLoop, pairPass, evalStep]

/-- C3 (amended).  When an individual pairwise union yields a null result,
the compositor pushes the null forward in place of that pair's combined
brush (it does not substitute the left-hand operand, and no result flag
records degradation): with exactly two brushes the final result is null,
and with four brushes whose first pair fails while the second succeeds,
the carried null reaches the next-level `evaluate` call and the whole
reduction throws, losing the previously accumulated geometry. -/
theorem balancedUnion_null_policy {α : Type} (ev : α → α → Option α)
    (a b c d u : α) (hab : ev a b = none) (hcd : ev c d = some u) :
    balancedUnion ev [a, b] = Except.ok JsVal.null ∧
    balancedUnion ev [a, b, c, d] = Except.error () := by
  constructor
  · simp [balancedUnion, balancedUnionLoop, pairPass, evalStep, hab]
  · simp [balancedUnion, balancedUnionLoop, pairPass, evalStep, hab, hcd,
      bind, Except.bind, pure, Except.pure]

/-- C3 witness: the amended policy at a concrete evaluator that fails on
the pair `(0, 1)` and unites `(2, 3)` into `9`. -/
theorem balancedUnion_null_policy_witness :
    (fun x _ => if x = 2 then some 9 else (none : Option ℕ)) 0 1 = none ∧
    (fun x _ => if x = 2 then some 9 else (none : Option ℕ)) 2 3 = some 9 ∧
    balancedUnion (fun x _ => if x = 2 then some 9 else (none : Option ℕ))
      [0, 1] = Except.ok JsVal.null := by
  refine ⟨rfl, rfl, ?_⟩
  exact (balancedUnion_null_policy _ 0 1 2 3 9 rfl rfl).1

/-- C4 (code bug).  At the source defaults (card height 54, top margin 8,
line spacing 10, 4 grid rows, cylinder height defaulting to the card
height), the cylinder embossing plate puts row 0's dot centerline at axial
coordinate 19, while the cylinder counter plate centers the row block and
puts row 0's recess centerline at 15 — as do the embossing plate's own row
indicators; the two modes do not place rows identically and the emboss dot
rows are not centered about the midplane. -/
theorem cylinder_row_axial_mismatch :
    cylinderEmbossRowAxial {} {} 0 = 19 ∧
    cylinderCounterRowAxial {} {} 0 = 15 ∧
    cylinderEmbossIndicatorAxial {} {} 0 = 15 ∧
    (19 : ℚ) ≠ 15 := by
  refine ⟨?_, ?_, ?_, by norm_num⟩ <;>
    norm_num [cylinderEmbossRowAxial, cylinderCounterRowAxial,
      cylinderEmbossIndicatorAxial, getGridRows, toNumber, jsOr]

/-- C7.  On the cylinder, every dot's angle equals
`(x / circumference) · 2π + seamOffset` for its flat plate-space X (the
builder's per-column angle offsets `±(dotSpacing/radius)/2` coincide with
mapping the flat `±dotSpacing/2` offsets through the arc-length formula);
hence equal plate-space X gives equal angles, changing the seam offset
rotates every angle by exactly the change, and for diameter 31.35 and
plate-space X 10 the cell angle is `(10/(π·31.35))·2π + seamOffsetRad`. -/
theorem cylinder_angle_mapping (d ds x off : ℝ) (hd : d ≠ 0) :
    (∀ c : ℕ, cylDotTheta d ds x off c =
      (flatDotX ds x c / (Real.pi * d)) * (2 * Real.pi) + off) ∧
    (∀ (x₁ x₂ : ℝ) (c : ℕ), x₁ = x₂ →
      cylDotTheta d ds x₁ off c = cylDotTheta d ds x₂ off c) ∧
    (∀ (off₁ off₂ : ℝ) (c : ℕ),
      cylDotTheta d ds x off₁ c - cylDotTheta d ds x off₂ c = off₁ - off₂) ∧
    (∀ o : ℝ, cylBaseTheta 31.35 10 o =
      (10 / (Real.pi * 31.35)) * (2 * Real.pi) + o) := by
  have hpi := Real.pi_ne_zero
  refine ⟨fun c => ?_, fun x₁ x₂ c h => by rw [h], fun off₁ off₂ c => ?_,
    fun o => rfl⟩
  · unfold cylDotTheta cylBaseTheta dotColAngleOffset flatDotX
    by_cases hc : c = 0 <;> simp only [hc, if_true, if_false, reduceIte] <;>
      field_simp <;> ring
  · unfold cylDotTheta cylBaseTheta
    ring

/-- C7 witness: the mapping theorem at diameter 1, dot spacing 0, cell
X 0, seam offset 0. -/
theorem cylinder_angle_mapping_witness :
    (1 : ℝ) ≠ 0 ∧
    (∀ c : ℕ, cylDotTheta 1 0 0 0 c =
      (flatDotX 0 0 c / (Real.pi * 1)) * (2 * Real.pi) + 0) :=
  ⟨one_ne_zero, (cylinder_angle_mapping 1 0 0 0 one_ne_zero).1⟩

/-- C8 (counterexample).  The serializer does not skip degenerate
triangles: a single zero-area triangle (all three vertices equal) is
emitted as one facet — with a zero normal vector, since normalizing the
zero cross product leaves it unchanged — where the claim requires zero
facets. -/
theorem degenerate_triangle_emitted :
    (exportFacets [(⟨⟨0, 0, 0⟩, ⟨0, 0, 0⟩, ⟨0, 0, 0⟩⟩, ⟨0, 0, 1⟩)]).length = 1 ∧
    (1 : ℕ) ≠ 0 ∧
    ∀ f ∈ exportFacets [(⟨⟨0, 0, 0⟩, ⟨0, 0, 0⟩, ⟨0, 0, 0⟩⟩, ⟨0, 0, 1⟩)],
      f.normal = ⟨0, 0, 0⟩ := by
  refine ⟨by simp [exportFacets], by norm_num, ?_⟩
  intro f hf
  simp only [exportFacets, List.map_cons, List.map_nil, List.mem_singleton] at hf
  subst hf
  simp [facetNormal, vnormalize, vcross, vsub, vlen2, vscale, Real.sqrt_zero]

/-- C8 (amended).  Every emitted facet's normal is computed from the
triangle's vertex winding — `normalize((c − b) × (a − b))` — and never read
from the mesh's upstream normal attribute: outputs agree whenever the
position data agree, whatever the upstream normals; and exactly one facet
is emitted per vertex triple, so degenerate (zero-area) triangles are
emitted (with a zero normal) rather than skipped. -/
theorem export_normals_from_winding (l₁ l₂ : List (Tri × Vec3))
    (h : l₁.map Prod.fst = l₂.map Prod.fst) :
    exportFacets l₁ = exportFacets l₂ ∧
    (exportFacets l₁).length = l₁.length ∧
    ∀ f ∈ exportFacets l₁,
      f.normal = vnormalize (vcross (vsub f.vc f.vb) (vsub f.va f.vb)) := by
  have key : ∀ l : List (Tri × Vec3), exportFacets l =
      (l.map Prod.fst).map fun t =>
        { normal := facetNormal t, va := t.a, vb := t.b, vc := t.c } := by
    intro l
    simp [exportFacets, List.map_map]
  refine ⟨by rw [key, key, h], by simp [exportFacets], ?_⟩
  intro f hf
  simp only [exportFacets, List.mem_map] at hf
  obtain ⟨tv, _, rfl⟩ := hf
  rfl

/-- C8 witness: the amended theorem at two empty triangle lists. -/
theorem export_normals_from_winding_witness :
    ([] : List (Tri × Vec3)).map Prod.fst = ([] : List (Tri × Vec3)).map Prod.fst ∧
    exportFacets [] = exportFacets [] :=
  ⟨rfl, (export_normals_from_winding [] [] rfl).1⟩

/-- C9.  The flat-plate emboss layout is a pure function: outside the
debug mode, the emitted dot positions are exactly the image of the active
`(row, col, dotSlot)` triples under the closed-form position function
`cardDotPosition`, which depends only on the triple and the settings (not
on the rest of the text, on evaluation order, or on any random state); in
particular re-running the layout on identical inputs yields identical
positions. -/
theorem card_emboss_layout_pure (lines : List (List ℕ)) (s : Settings)
    (hdbg : s.debug_triangle_only = false) :
    buildCardEmbossingDots lines s =
      (activeDotTriples lines s).map
        (fun t => cardDotPosition s t.1 t.2.1 t.2.2) ∧
    buildCardEmbossingDots lines s = buildCardEmbossingDots lines s := by
  refine ⟨?_, rfl⟩
  unfold buildCardEmbossingDots activeDotTriples
  rw [hdbg]
  simp only [Bool.false_eq_true, if_false, List.map_flatMap, List.map_filterMap]
  congr 1
  funext rowIdx
  congr 1
  funext col
  congr 1
  funext i
  by_cases hb : brailleUnicodeToDots
      (((lines.getD rowIdx []).take (jsSliceCount (getAvailableColumns s))).getD col 0)
      ⟨i % 6, Nat.mod_lt _ (by omega)⟩ <;>
    simp [hb]

/-- C9 witness: the purity theorem at one line of one cell and default
settings. -/
theorem card_emboss_layout_pure_witness :
    ({} : Settings).debug_triangle_only = false ∧
    buildCardEmbossingDots [[0x2801]] {} =
      (activeDotTriples [[0x2801]] {}).map
        (fun t => cardDotPosition {} t.1 t.2.1 t.2.2) :=
  ⟨rfl, (card_emboss_layout_pure [[0x2801]] {} rfl).1⟩

/-- C10.  Neither counter-plate builder takes text input: for any two
translated texts (and the same settings and cylinder parameters) both the
flat and the cylinder builder produce the identical plate, because
(outside the debug mode) their recesses enumerate all 6 dot slots of every
cell across all available columns and all grid rows —
`rows · availableColumns · 6` recess centers each, independent of any
braille line content. -/
theorem counter_plate_text_independent (s : Settings) (p : CylParams)
    (hdbg : s.debug_triangle_only = false) :
    (∀ t₁ t₂ : List (List ℕ),
      cardCounterPlateForText t₁ s = cardCounterPlateForText t₂ s) ∧
    (buildCardCounterRecessCenters s).length =
      jsLoopCount (getGridRows s) * jsLoopCount (getAvailableColumns s) * 6 ∧
    (∀ t₁ t₂ : List (List ℕ),
      cylinderCounterPlateForText t₁ s p = cylinderCounterPlateForText t₂ s p) ∧
    (buildCylinderCounterRecessCenters s p).length =
      jsLoopCount (getGridRows s) * jsLoopCount (getAvailableColumns s) * 6 := by
  refine ⟨fun t₁ t₂ => rfl, ?_, fun t₁ t₂ => rfl, ?_⟩
  · unfold buildCardCounterRecessCenters
    rw [hdbg]
    simp only [Bool.false_eq_true, if_false]
    rw [length_flatMap_const _ (jsLoopCount (getAvailableColumns s) * 6)]
    · simp [Nat.mul_assoc]
    · intro rowIdx _
      rw [length_flatMap_const _ 6]
      · simp
      · intro col _
        rw [length_flatMap_const _ 3]
        · simp
        · intro c _
          simp
  · unfold buildCylinderCounterRecessCenters
    rw [hdbg]
    simp only [Bool.false_eq_true, if_false]
    rw [length_flatMap_const _ (jsLoopCount (getAvailableColumns s) * 6)]
    · simp [Nat.mul_assoc]
    · intro rowIdx _
      rw [length_flatMap_const _ 6]
      · simp
      · intro col _
        rw [length_flatMap_const _ 3]
        · simp
        · intro c _
          simp

/-- C10 witness: text independence and the recess counts of both builders
at default settings and default cylinder parameters (4 rows × 24 available
columns × 6 slots = 576 each). -/
theorem counter_plate_text_independent_witness :
    ({} : Settings).debug_triangle_only = false ∧
    (buildCardCounterRecessCenters {}).length =
      jsLoopCount (getGridRows {}) * jsLoopCount (getAvailableColumns {}) * 6 ∧
    (buildCylinderCounterRecessCenters {} {}).length =
      jsLoopCount (getGridRows {}) * jsLoopCount (getAvailableColumns {}) * 6 :=
  ⟨rfl, (counter_plate_text_independent {} {} rfl).2.1,
    (counter_plate_text_independent {} {} rfl).2.2.2⟩

/-- Helper: `countP` over a `flatMap` whose blocks all contribute `k`. -/
theorem countP_flatMap_const {α β : Type} (p : β → Bool) (f : α → List β) (k : ℕ) :
    ∀ l : List α, (∀ a ∈ l, (f a).countP p = k) →
      (l.flatMap f).countP p = l.length * k
  | [], _ => by simp
  | a :: l, h => by
      have ha := h a (by simp)
      have ih := countP_flatMap_const p f k l fun x hx => h x (by simp [hx])
      simp only [List.flatMap_cons, List.countP_append, List.length_cons, ih, ha]
      ring

/-- Helper: the slice bound never exceeds the loop bound
(`⌊q⌋ ≤ ⌈q⌉`). -/
theorem jsSliceCount_le_jsLoopCount (q : ℚ) : jsSliceCount q ≤ jsLoopCount q :=
  Int.toNat_le_toNat (Int.floor_le_ceil q)

/-- C2 (counterexample).  Grid of 4 columns (2 available) × 1 row, text a
single cell `⠁` (dot 1 only): the emboss plate raises exactly 1 dot, but
the counter plate recesses all 2·6 = 12 dot slots — the recess positions
are not "exactly the dot-slot positions that the emboss plate raises for
that same text". -/
theorem counter_vs_emboss_positions :
    (buildCardEmbossingDots [[0x2801]]
      { grid_columns := some 4, grid_rows := some 1 }).length = 1 ∧
    (buildCardCounterRecessCenters
      { grid_columns := some 4, grid_rows := some 1 }).length = 12 ∧
    (1 : ℕ) ≠ 12 := by
  have hC : getAvailableColumns { grid_columns := some 4, grid_rows := some 1 } = 2 := by
    norm_num [getAvailableColumns, jsOr, toNumber, max_def]
  have hR : getGridRows { grid_columns := some 4, grid_rows := some 1 } = 1 := by
    norm_num [getGridRows, jsOr]
  refine ⟨?_, ?_, by norm_num⟩
  · simp only [buildCardEmbossingDots, hC, hR]
    decide
  · simp only [buildCardCounterRecessCenters, hC, hR]
    decide

/-- C2 (amended).  For the same settings (outside debug mode, with no
explicit counter-plate dot diameter configured), the flat counter plate is
the carrier box minus recesses at *all* 6 dot slots of every cell across
all available columns and grid rows — a superset containing every dot-slot
position the emboss plate raises for any text — with recess opening
diameter equal to the emboss dot diameter plus the configured counter-plate
size offset, minus exactly 2 indicator prisms per row (one rectangle, one
triangle). -/
theorem counter_plate_superset (s : Settings)
    (hov : s.counter_plate_dot_cylinder_diameter = none)
    (hdbg : s.debug_triangle_only = false) :
    recessOpeningDiameter s =
      embossDotCylinderDiameter s + toNumber s.counter_plate_dot_size_offset 0 ∧
    (∀ (lines : List (List ℕ)) (p : ℚ × ℚ × ℚ),
      p ∈ buildCardEmbossingDots lines s → p ∈ buildCardCounterRecessCenters s) ∧
    (buildCardCounterIndicators s).countP
      (fun x => decide (x.1 = IndicatorKind.rect)) = jsLoopCount (getGridRows s) ∧
    (buildCardCounterIndicators s).countP
      (fun x => decide (x.1 = IndicatorKind.tri)) = jsLoopCount (getGridRows s) := by
  refine ⟨by simp [recessOpeningDiameter, hov], ?_, ?_, ?_⟩
  · intro lines p hp
    unfold buildCardEmbossingDots at hp
    rw [hdbg] at hp
    simp only [Bool.false_eq_true, if_false, List.mem_flatMap, List.mem_range,
      List.mem_filterMap] at hp
    obtain ⟨rowIdx, hrow, col, hcol, i, hi, hcond⟩ := hp
    have hcol' : col < jsLoopCount (getAvailableColumns s) := by
      have h1 : ((lines.getD rowIdx []).take
          (jsSliceCount (getAvailableColumns s))).length ≤
          jsSliceCount (getAvailableColumns s) := by
        simp [List.length_take]
      have := jsSliceCount_le_jsLoopCount (getAvailableColumns s)
      omega
    split at hcond
    · rename_i hbit
      have hpos := Option.some.inj hcond
      unfold buildCardCounterRecessCenters
      rw [hdbg]
      simp only [Bool.false_eq_true, if_false, List.mem_flatMap, List.mem_range,
        List.mem_map]
      refine ⟨rowIdx, hrow, col, hcol', (dotIndexToRowCol i).2, ?_,
        (dotIndexToRowCol i).1, ?_, ?_⟩
      · interval_cases i <;> simp [dotIndexToRowCol]
      · interval_cases i <;> simp [dotIndexToRowCol]
      · rw [← hpos]
        rfl
    · exact absurd hcond (by simp)
  · unfold buildCardCounterIndicators
    rw [countP_flatMap_const _ _ 1]
    · simp
    · intro rowIdx _
      rw [hdbg]
      simp [List.countP_cons, List.countP_nil]
  · unfold buildCardCounterIndicators
    rw [countP_flatMap_const _ _ 1]
    · simp
    · intro rowIdx _
      rw [hdbg]
      simp [List.countP_cons, List.countP_nil]

/-- C2 witness: the amended theorem at default settings. -/
theorem counter_plate_superset_witness :
    ({} : Settings).counter_plate_dot_cylinder_diameter = none ∧
    ({} : Settings).debug_triangle_only = false ∧
    recessOpeningDiameter {} =
      embossDotCylinderDiameter {} + toNumber ({} : Settings).counter_plate_dot_size_offset 0 :=
  ⟨rfl, rfl, (counter_plate_superset {} rfl rfl).1⟩

end BrailleGeo
